import Mathlib

/-!
Shallow embedding of the pytorch-lightning-template repository, covering
`src/datasets/load_dataset.py` and `src/test.py`.

The repository is glue code: a configuration record drives a string-keyed
dispatch over datasets and networks, an evaluation adapter accumulates
metric observations batch by batch, and a reporting section renders a
confusion-matrix heatmap. External pieces (the dataset generator from
`datasets/CIFAR10.py`, the `ResNet50` constructor, the torchmetrics
accumulators, the matplotlib calls) are not part of src; they are modelled
from the spec as parameters or as effect records, while every dispatch
decision and every argument wiring below is translated from the source.
-/

/-- Configuration record parsed from the JSON file by `utils/config.py`
(not in src). Fields are exactly those read by `src/test.py` and
`src/datasets/load_dataset.py`: dataset and network identifiers, batch
size, validation size, augmentation flag, seed, the `weights` field passed
to the network constructor, the checkpoint directory and stem, and the
include-top flag. -/
structure Config where
  dataset : String
  network : String
  batch_size : Nat
  validation_size : Nat
  augment : Bool
  seed : Nat
  weights : String
  weights_dir : String
  weights_path : String
  include_top : Bool
deriving Repr, DecidableEq

namespace Datasets

/-- Modelled from the spec: `utils/config.py` (not in src) defines the
closed dataset enumeration; the spec describes `config.dataset` as a string
drawn from the closed set of identifiers. -/
def CIFAR10 : String := "CIFAR10"

/-- Modelled from the spec: second member of the closed dataset
enumeration in `utils/config.py` (not in src). -/
def CIFAR100 : String := "CIFAR100"

/-- Modelled from the spec: third member of the closed dataset enumeration
in `utils/config.py` (not in src). -/
def CIFAR10_128 : String := "CIFAR10_128"

end Datasets

/-- The three dataset implementation classes that `load_dataset` can
select (`datasets/CIFAR10.py`, `datasets/CIFAR100.py`,
`datasets/CIFAR10_128.py`). -/
inductive DatasetImpl where
  | CIFAR10
  | CIFAR100
  | CIFAR10_128
deriving Repr, DecidableEq

/-- A dataset object as constructed by
`Dataset(config.batch_size, config.validation_size, config.augment)` in
`src/datasets/load_dataset.py` line 15: the selected implementation
together with the three positional constructor arguments. -/
structure DatasetObj where
  impl : DatasetImpl
  batch_size : Nat
  validation_size : Nat
  augment : Bool
deriving Repr, DecidableEq

/-- Outcome of `load_dataset`: either a constructed dataset object, or a
fatal path that prints the message and terminates the process with the
given exit code (Python `print` followed by `exit(1)`). There is no
exception variant because the source raises and catches none. -/
inductive LoadDatasetResult where
  | ok (dataset : DatasetObj)
  | fatal (msg : String) (code : Nat)
deriving Repr, DecidableEq

/-- `load_dataset` from `src/datasets/load_dataset.py` lines 4-17: an
if/elif chain comparing `config.dataset` against the enumeration members,
constructing the selected implementation with
`(batch_size, validation_size, augment)`, and otherwise printing an error
and exiting with code 1 before any dataset object is constructed. -/
def load_dataset (config : Config) : LoadDatasetResult :=
  if config.dataset = Datasets.CIFAR10 then
    LoadDatasetResult.ok
      ⟨DatasetImpl.CIFAR10, config.batch_size, config.validation_size, config.augment⟩
  else if config.dataset = Datasets.CIFAR100 then
    LoadDatasetResult.ok
      ⟨DatasetImpl.CIFAR100, config.batch_size, config.validation_size, config.augment⟩
  else if config.dataset = Datasets.CIFAR10_128 then
    LoadDatasetResult.ok
      ⟨DatasetImpl.CIFAR10_128, config.batch_size, config.validation_size, config.augment⟩
  else
    LoadDatasetResult.fatal
      "[ERROR] Invalid dataset passed in configuration file. Exiting..." 1

/-- Result of the dataset generator `generate_CIFAR10` from
`datasets/CIFAR10.py`. Modelled from the spec: the generator (not in src)
returns train/validation/test data loaders plus a class-name mapping
(class name to class index, insertion-ordered). Loader elements are
(input batch, label batch) pairs, modelled over Nat. -/
structure GenResult where
  train_loader : List (Nat × Nat)
  validation_loader : List (Nat × Nat)
  test_loader : List (Nat × Nat)
  classes : List (String × Nat)
deriving Repr, DecidableEq

/-- The network object constructed by `network(include_top=...,
weights=..., num_classes=...)` in `src/test.py` lines 59-61. Modelled from
the spec: `networks/resnet50.py` is not in src; the spec records the three
construction arguments, which the driver wires from the configuration and
the hard-coded class count. -/
structure NetworkObj where
  include_top : Bool
  weights : String
  num_classes : Nat
deriving Repr, DecidableEq

/-- One torchmetrics accumulator as constructed in the adapter's
initializer (`src/test.py` lines 72-86): its task string, class count, and
optional averaging mode. -/
structure Metric where
  task : String
  num_classes : Nat
  average : Option String
deriving Repr, DecidableEq

/-- The metric accumulators owned by the adapter: the four-entry
MetricCollection plus the separate ConfusionMatrix. -/
structure MetricSet where
  metrics : List (String × Metric)
  confusion_matrix : Metric
deriving Repr, DecidableEq

/-- Metric construction in the adapter's initializer (`src/test.py` lines
72-86): Accuracy, Precision, Recall, AUROC inside the collection and a
ConfusionMatrix outside it, every one built with `task="multiclass"` and
the ambient `num_classes`. -/
def Model.initMetrics (num_classes : Nat) : MetricSet :=
  { metrics :=
      [("accuracy", { task := "multiclass", num_classes := num_classes, average := none }),
       ("precision", { task := "multiclass", num_classes := num_classes, average := some "macro" }),
       ("recall", { task := "multiclass", num_classes := num_classes, average := some "macro" }),
       ("auc", { task := "multiclass", num_classes := num_classes, average := none })]
    confusion_matrix := { task := "multiclass", num_classes := num_classes, average := none } }

/-- Mutable state of the adapter's two metric accumulators, modelled as the
lists of (output, target) observations each has ingested. Modelled from the
spec for the torchmetrics internals (external library): an accumulator
ingests per-batch observations via `update` and yields an aggregate of
exactly those observations via `compute`. -/
structure ModelState (β γ : Type) where
  metrics_obs : List (β × γ)
  confmat_obs : List (β × γ)
deriving Repr, DecidableEq

/-- `Model.step` from `src/test.py` lines 88-92: destructure the batch,
run the wrapped network forward on the inputs, compute the loss of the
output against the target, and return (loss, output, target). -/
def Model.step {α β γ δ : Type} (net : α → β) (criterion : β → γ → δ)
    (batch : α × γ) : δ × β × γ :=
  let output := net batch.1
  let loss := criterion output batch.2
  (loss, output, batch.2)

/-- `Model.test_step` from `src/test.py` lines 94-97: run `step`, discard
the loss, and update both accumulators with the single observation
(output, target). The Python method returns `None`; here the only result
is the new accumulator state. -/
def Model.test_step {α β γ δ : Type} (net : α → β) (criterion : β → γ → δ)
    (s : ModelState β γ) (batch : α × γ) : ModelState β γ :=
  let r := Model.step net criterion batch
  { metrics_obs := s.metrics_obs ++ [(r.2.1, r.2.2)]
    confmat_obs := s.confmat_obs ++ [(r.2.1, r.2.2)] }

/-- The plotting and saving actions of `src/test.py` lines 110-128,
recorded as a pure effect description: the seaborn heatmap arguments, the
x-axis tick rotation, the axis labels and title, the `plt.savefig` target
filename, and whether `plt.close` was called on the figure. -/
structure PlotActions where
  heatmap_data : List (Nat × Nat)
  annot : Bool
  fmt : String
  cmap : String
  xticklabels : List String
  yticklabels : List String
  x_labelrotation : Nat
  xlabel : String
  ylabel : String
  title : String
  savefig_path : String
  figure_closed : Bool
deriving Repr, DecidableEq

/-- Reporting section of `src/test.py` lines 110-128: take
`class_names = list(classes.keys())` (insertion order of the mapping),
render the computed confusion matrix as an annotated heatmap with those
names on both axes, rotate the x tick labels by 45 degrees, save to the
fixed filename `confusion_matrix.png`, and close the figure. -/
def render_report (confmat_value : List (Nat × Nat))
    (classes : List (String × Nat)) : PlotActions :=
  let class_names := classes.map Prod.fst
  { heatmap_data := confmat_value
    annot := true
    fmt := "d"
    cmap := "Blues"
    xticklabels := class_names
    yticklabels := class_names
    x_labelrotation := 45
    xlabel := "Predicted Labels"
    ylabel := "True Labels"
    title := "Confusion Matrix"
    savefig_path := "confusion_matrix.png"
    figure_closed := true }

/-- Everything a completed run of the driver produces: the hard-coded
class count, the constructed network object, the adapter's metric
accumulators as initialized, the accumulator state after the test loop,
the class-name mapping from the dataset, and the recorded plot actions. -/
structure RunResult where
  num_classes : Nat
  net : NetworkObj
  metricSet : MetricSet
  final_state : ModelState Nat Nat
  classes : List (String × Nat)
  plot : PlotActions
deriving Repr, DecidableEq

/-- Outcome of the driver script: a clean `exit(code)` after printing
`msg`, an unhandled Python NameError on the unbound name `name` (with the
messages printed before it), or a completed run. -/
inductive DriverOutcome where
  | exited (msg : String) (code : Nat)
  | nameError (name : String) (printed : List String)
  | completed (r : RunResult)
deriving Repr, DecidableEq

/-- The success path of the driver (`src/test.py` lines 40-128) once both
dispatch branches have matched: `num_classes` is the hard-coded 10, the
generator is called with the configuration's batch size, validation size
and augment flag, the network object is built from
`(config.include_top, config.weights, num_classes)`, the adapter's metrics
are initialized, the external test loop (modelled from the spec: the
trainer invokes `test_step` once per test batch, in order) folds
`Model.test_step` over the test loader starting from empty accumulators,
and the reporting section renders the computed confusion matrix with the
dataset's class names. -/
def driverRun (config : Config) (gen : Nat → Nat → Bool → GenResult)
    (forward : NetworkObj → Nat → Nat) (criterion : Nat → Nat → Int) :
    RunResult :=
  let num_classes : Nat := 10
  let g := gen config.batch_size config.validation_size config.augment
  let net : NetworkObj :=
    { include_top := config.include_top
      weights := config.weights
      num_classes := num_classes }
  let s0 : ModelState Nat Nat := { metrics_obs := [], confmat_obs := [] }
  let sFinal := g.test_loader.foldl
    (fun s b => Model.test_step (forward net) criterion s b) s0
  { num_classes := num_classes
    net := net
    metricSet := Model.initMetrics num_classes
    final_state := sFinal
    classes := g.classes
    plot := render_report sFinal.confmat_obs g.classes }

/-- The driver script `src/test.py` after configuration parsing,
parameterized over the external pieces not in src (the dataset generator,
the network forward function, the loss criterion). Lines 40-46: the inline
dataset dispatch accepts exactly the string "CIFAR10" (it never calls
`load_dataset`), otherwise it prints an error and exits with code 1 before
any loaders are built. Lines 55-58: the network branch accepts exactly
"ResNet50"; on any other value it prints an error but does not exit, so
line 59 then references the unbound name `network` and the run dies with a
NameError. -/
def driver (config : Config) (gen : Nat → Nat → Bool → GenResult)
    (forward : NetworkObj → Nat → Nat) (criterion : Nat → Nat → Int) :
    DriverOutcome :=
  if config.dataset = "CIFAR10" then
    if config.network = "ResNet50" then
      DriverOutcome.completed (driverRun config gen forward criterion)
    else
      DriverOutcome.nameError "network"
        ["[ERROR] Currently only ResNet50 network is supported. Exiting..."]
  else
    DriverOutcome.exited
      "[ERROR] Currently only CIFAR10 dataset is supported. Exiting..." 1

/-- Outcome of the argparse stage: a usage error (argparse prints usage and
exits with code 2) or a parsed namespace carrying the optional
`--config_path` value. -/
inductive CliResult where
  | usageError (msg : String)
  | parsed (config_path : Option String)
deriving Repr, DecidableEq

/-- The argument parser built in `src/test.py` lines 22-29: a single
optional `--config_path` flag, declared with no default and not required,
so an invocation without it parses successfully and yields Python `None`.
A flag given without a value or an unrecognized argument is an argparse
usage error; on repetition the last value wins. -/
def parse_args : List String → CliResult
  | [] => CliResult.parsed none
  | "--config_path" :: v :: rest =>
      match parse_args rest with
      | CliResult.parsed none => CliResult.parsed (some v)
      | r => r
  | ["--config_path"] =>
      CliResult.usageError "argument --config_path: expected one argument"
  | _ => CliResult.usageError "unrecognized arguments"

/-- Outcome of `parse_json`: a parsed configuration, or an unhandled
downstream failure that propagates and kills the process. -/
inductive ParseJsonResult where
  | ok (c : Config)
  | downstreamError (msg : String)
deriving Repr, DecidableEq

/-- Modelled from the spec: `parse_json` from `utils/json_parser.py` (not
in src) opens the JSON file at the given path and parses it into a Config;
the spec states that a missing or malformed configuration file propagates
as an unhandled low-level failure with no explicit handling. Passing
Python `None` as the path makes the file-open call itself fail with an
unhandled type error. `fs` models the file system as a map from path to
the configuration parsed from the file there, if any. -/
def parse_json (path : Option String) (fs : String → Option Config) :
    ParseJsonResult :=
  match path with
  | none =>
      ParseJsonResult.downstreamError
        "expected str, bytes or os.PathLike object, not NoneType"
  | some p =>
      match fs p with
      | some c => ParseJsonResult.ok c
      | none => ParseJsonResult.downstreamError ("unhandled failure reading " ++ p)

/-- Combined outcome of the CLI stage of the driver. -/
inductive CliStageResult where
  | usage (msg : String)
  | config (c : Config)
  | downstream (msg : String)
deriving Repr, DecidableEq

/-- CLI stage of `src/test.py` lines 22-31: parse argv with the argument
parser, then hand `args.config_path` (possibly `None`) straight to
`parse_json`. -/
def cli_stage (argv : List String) (fs : String → Option Config) :
    CliStageResult :=
  match parse_args argv with
  | CliResult.usageError m => CliStageResult.usage m
  | CliResult.parsed p =>
      match parse_json p fs with
      | ParseJsonResult.ok c => CliStageResult.config c
      | ParseJsonResult.downstreamError m => CliStageResult.downstream m

/-- A sample configuration for instantiating universally quantified
theorems at concrete inputs. -/
def sampleConfig : Config :=
  { dataset := "CIFAR10"
    network := "ResNet50"
    batch_size := 32
    validation_size := 1
    augment := true
    seed := 42
    weights := "imagenet"
    weights_dir := "weights"
    weights_path := "resnet50"
    include_top := true }

/-- A sample dataset generator for instantiating theorems: one test batch
and a two-class mapping. -/
def sampleGen : Nat → Nat → Bool → GenResult :=
  fun _ _ _ =>
    { train_loader := [(0, 0)]
      validation_loader := [(1, 1)]
      test_loader := [(2, 1)]
      classes := [("plane", 0), ("car", 1)] }

/-- C1: the claim says both the dataset and the network branch terminate
the process with a non-zero exit on an identifier outside the enumeration.
The code violates this for the network branch: at a configuration with
`network = "VGG16"` the driver prints the error message (which even says
"Exiting...") but does not exit, and the run dies later with a NameError
on the unbound name `network` at the model-construction line. -/
theorem invalid_network_not_terminated :
    driver { sampleConfig with network := "VGG16" } sampleGen
        (fun _ x => x) (fun _ _ => 0) =
      DriverOutcome.nameError "network"
        ["[ERROR] Currently only ResNet50 network is supported. Exiting..."] := by
  rfl

/-- C2: for every configuration whose dataset identifier is outside the
enumeration, `load_dataset` reaches the fatal branch: it prints a message
containing "Invalid dataset" and exits with code exactly 1, constructing
no dataset object and raising no exception. -/
theorem load_dataset_invalid_dataset_fatal (config : Config)
    (h1 : config.dataset ≠ Datasets.CIFAR10)
    (h2 : config.dataset ≠ Datasets.CIFAR100)
    (h3 : config.dataset ≠ Datasets.CIFAR10_128) :
    ∃ msg, load_dataset config = LoadDatasetResult.fatal msg 1 ∧
      ∃ pre post, msg = pre ++ "Invalid dataset" ++ post := by
  refine ⟨"[ERROR] Invalid dataset passed in configuration file. Exiting...",
    ?_, "[ERROR] ", " passed in configuration file. Exiting...", rfl⟩
  simp [load_dataset, h1, h2, h3]

/-- C2 witness at the concrete dataset identifier "MNIST". -/
theorem load_dataset_invalid_dataset_fatal_witness :
    ∃ msg, load_dataset { sampleConfig with dataset := "MNIST" } =
        LoadDatasetResult.fatal msg 1 ∧
      ∃ pre post, msg = pre ++ "Invalid dataset" ++ post :=
  load_dataset_invalid_dataset_fatal { sampleConfig with dataset := "MNIST" }
    (by decide) (by decide) (by decide)

/-- C3: whenever the driver's dataset branch passes but `config.network`
is not "ResNet50", the driver prints the network error message yet does
not terminate at that point; it then fails with a NameError on the unbound
name `network` at the model-construction line instead of a clean exit. -/
theorem driver_invalid_network_nameError (config : Config)
    (gen : Nat → Nat → Bool → GenResult) (forward : NetworkObj → Nat → Nat)
    (criterion : Nat → Nat → Int)
    (hd : config.dataset = "CIFAR10") (hn : config.network ≠ "ResNet50") :
    driver config gen forward criterion =
      DriverOutcome.nameError "network"
        ["[ERROR] Currently only ResNet50 network is supported. Exiting..."] := by
  simp [driver, hd, hn]

/-- C3 witness at the concrete network identifier "LeNet". -/
theorem driver_invalid_network_nameError_witness :
    driver { sampleConfig with network := "LeNet" } sampleGen
        (fun _ x => x) (fun _ _ => 0) =
      DriverOutcome.nameError "network"
        ["[ERROR] Currently only ResNet50 network is supported. Exiting..."] :=
  driver_invalid_network_nameError { sampleConfig with network := "LeNet" }
    sampleGen (fun _ x => x) (fun _ _ => 0) rfl (by decide)

/-- C4: for each of the three enumeration members, `load_dataset` selects
the correspondingly-named implementation and constructs it with exactly
the three positional arguments (batch_size, validation_size, augment). -/
theorem load_dataset_valid_dispatch (config : Config) :
    (config.dataset = Datasets.CIFAR10 →
      load_dataset config = LoadDatasetResult.ok
        ⟨DatasetImpl.CIFAR10, config.batch_size, config.validation_size,
          config.augment⟩) ∧
    (config.dataset = Datasets.CIFAR100 →
      load_dataset config = LoadDatasetResult.ok
        ⟨DatasetImpl.CIFAR100, config.batch_size, config.validation_size,
          config.augment⟩) ∧
    (config.dataset = Datasets.CIFAR10_128 →
      load_dataset config = LoadDatasetResult.ok
        ⟨DatasetImpl.CIFAR10_128, config.batch_size, config.validation_size,
          config.augment⟩) := by
  refine ⟨fun h => ?_, fun h => ?_, fun h => ?_⟩ <;>
    simp [load_dataset, h, Datasets.CIFAR10, Datasets.CIFAR100,
      Datasets.CIFAR10_128]

/-- C4 witness at the concrete dataset identifier "CIFAR100". -/
theorem load_dataset_valid_dispatch_witness :
    load_dataset { sampleConfig with dataset := "CIFAR100" } =
      LoadDatasetResult.ok ⟨DatasetImpl.CIFAR100, 32, 1, true⟩ :=
  (load_dataset_valid_dispatch { sampleConfig with dataset := "CIFAR100" }).2.1 rfl

/-- C5: when both branches match, the driver constructs the network object
with include_top equal to `config.include_top`, weights equal to
`config.weights`, and num_classes equal to the run's class count, which is
10 (the class count of CIFAR10, the only dataset that reaches this
point). -/
theorem driver_resnet50_construction (config : Config)
    (gen : Nat → Nat → Bool → GenResult) (forward : NetworkObj → Nat → Nat)
    (criterion : Nat → Nat → Int)
    (hd : config.dataset = "CIFAR10") (hn : config.network = "ResNet50") :
    ∃ r, driver config gen forward criterion = DriverOutcome.completed r ∧
      r.net.include_top = config.include_top ∧
      r.net.weights = config.weights ∧
      r.net.num_classes = r.num_classes ∧
      r.num_classes = 10 :=
  ⟨driverRun config gen forward criterion, by simp [driver, hd, hn],
    rfl, rfl, rfl, rfl⟩

/-- C5 witness at the sample configuration. -/
theorem driver_resnet50_construction_witness :
    ∃ r, driver sampleConfig sampleGen (fun _ x => x) (fun _ _ => 0) =
        DriverOutcome.completed r ∧
      r.net.include_top = sampleConfig.include_top ∧
      r.net.weights = sampleConfig.weights ∧
      r.net.num_classes = r.num_classes ∧
      r.num_classes = 10 :=
  driver_resnet50_construction sampleConfig sampleGen (fun _ x => x)
    (fun _ _ => 0) rfl rfl

/-- C6: on any single batch (inputs, target), `test_step` runs the network
forward on the inputs, appends exactly one observation (output, target) to
each of the two accumulators, and changes nothing else (the state has no
other components); the loss is computed and discarded, so the result does
not depend on the criterion, and the Python method returns no value. -/
theorem test_step_single_observation {α β γ δ : Type} (net : α → β)
    (criterion criterion' : β → γ → δ) (s : ModelState β γ) (inputs : α)
    (target : γ) :
    (Model.test_step net criterion s (inputs, target)).metrics_obs
        = s.metrics_obs ++ [(net inputs, target)] ∧
    (Model.test_step net criterion s (inputs, target)).confmat_obs
        = s.confmat_obs ++ [(net inputs, target)] ∧
    Model.test_step net criterion s (inputs, target)
        = Model.test_step net criterion' s (inputs, target) :=
  ⟨rfl, rfl, rfl⟩

/-- C7: after a successful run, the driver renders the computed confusion
matrix as an annotated heatmap whose x and y tick labels are the class
names in their original insertion order, with x labels rotated 45 degrees,
saves it to the fixed filename "confusion_matrix.png", and closes the
figure after saving. -/
theorem driver_render_report (config : Config)
    (gen : Nat → Nat → Bool → GenResult) (forward : NetworkObj → Nat → Nat)
    (criterion : Nat → Nat → Int)
    (hd : config.dataset = "CIFAR10") (hn : config.network = "ResNet50") :
    ∃ r, driver config gen forward criterion = DriverOutcome.completed r ∧
      r.plot.heatmap_data = r.final_state.confmat_obs ∧
      r.plot.annot = true ∧
      r.plot.xticklabels =
        (gen config.batch_size config.validation_size config.augment).classes.map
          Prod.fst ∧
      r.plot.yticklabels = r.plot.xticklabels ∧
      r.plot.x_labelrotation = 45 ∧
      r.plot.savefig_path = "confusion_matrix.png" ∧
      r.plot.figure_closed = true :=
  ⟨driverRun config gen forward criterion, by simp [driver, hd, hn],
    rfl, rfl, rfl, rfl, rfl, rfl, rfl⟩

/-- C7 witness at the sample configuration: the tick labels come out as
["plane", "car"], the insertion order of the sample class mapping. -/
theorem driver_render_report_witness :
    ∃ r, driver sampleConfig sampleGen (fun _ x => x) (fun _ _ => 0) =
        DriverOutcome.completed r ∧
      r.plot.heatmap_data = r.final_state.confmat_obs ∧
      r.plot.annot = true ∧
      r.plot.xticklabels = (sampleGen 32 1 true).classes.map Prod.fst ∧
      r.plot.yticklabels = r.plot.xticklabels ∧
      r.plot.x_labelrotation = 45 ∧
      r.plot.savefig_path = "confusion_matrix.png" ∧
      r.plot.figure_closed = true :=
  driver_render_report sampleConfig sampleGen (fun _ x => x) (fun _ _ => 0)
    rfl rfl

/-- C8: the driver performs its own inline dataset dispatch that accepts
only the exact string "CIFAR10": on any other dataset identifier it prints
an error and exits with code 1 without ever calling the generator — even
on the identifiers "CIFAR100" and "CIFAR10_128", which the unused
`load_dataset` dispatcher would have accepted. -/
theorem driver_inline_dataset_dispatch (config : Config)
    (gen : Nat → Nat → Bool → GenResult) (forward : NetworkObj → Nat → Nat)
    (criterion : Nat → Nat → Int)
    (h : config.dataset ≠ "CIFAR10") :
    driver config gen forward criterion =
      DriverOutcome.exited
        "[ERROR] Currently only CIFAR10 dataset is supported. Exiting..." 1 ∧
    (config.dataset = Datasets.CIFAR100 →
      load_dataset config = LoadDatasetResult.ok
        ⟨DatasetImpl.CIFAR100, config.batch_size, config.validation_size,
          config.augment⟩) ∧
    (config.dataset = Datasets.CIFAR10_128 →
      load_dataset config = LoadDatasetResult.ok
        ⟨DatasetImpl.CIFAR10_128, config.batch_size, config.validation_size,
          config.augment⟩) := by
  refine ⟨by simp [driver, h], fun h100 => ?_, fun h128 => ?_⟩
  · simp [load_dataset, h100, Datasets.CIFAR10, Datasets.CIFAR100]
  · simp [load_dataset, h128, Datasets.CIFAR10, Datasets.CIFAR100,
      Datasets.CIFAR10_128]

/-- C8 witness at the concrete dataset identifier "CIFAR100": the driver
exits with code 1 while `load_dataset` would have accepted it. -/
theorem driver_inline_dataset_dispatch_witness :
    driver { sampleConfig with dataset := "CIFAR100" } sampleGen
        (fun _ x => x) (fun _ _ => 0) =
      DriverOutcome.exited
        "[ERROR] Currently only CIFAR10 dataset is supported. Exiting..." 1 ∧
    load_dataset { sampleConfig with dataset := "CIFAR100" } =
      LoadDatasetResult.ok ⟨DatasetImpl.CIFAR100, 32, 1, true⟩ :=
  ⟨(driver_inline_dataset_dispatch { sampleConfig with dataset := "CIFAR100" }
      sampleGen (fun _ x => x) (fun _ _ => 0) (by decide)).1,
    (driver_inline_dataset_dispatch { sampleConfig with dataset := "CIFAR100" }
      sampleGen (fun _ x => x) (fun _ _ => 0) (by decide)).2.1 rfl⟩

/-- C9: in every run that passes the dataset branch (and reaches metric
construction), the class count is the hard-coded constant 10, so all five
metric accumulators — the four in the collection plus the confusion
matrix — are constructed with num_classes = 10, regardless of the
class-name mapping the generator returns. -/
theorem driver_metrics_num_classes_ten (config : Config)
    (gen : Nat → Nat → Bool → GenResult) (forward : NetworkObj → Nat → Nat)
    (criterion : Nat → Nat → Int)
    (hd : config.dataset = "CIFAR10") (hn : config.network = "ResNet50") :
    ∃ r, driver config gen forward criterion = DriverOutcome.completed r ∧
      r.num_classes = 10 ∧
      r.metricSet.metrics.length = 4 ∧
      (∀ p ∈ r.metricSet.metrics, p.2.num_classes = 10) ∧
      r.metricSet.confusion_matrix.num_classes = 10 := by
  refine ⟨driverRun config gen forward criterion, by simp [driver, hd, hn],
    rfl, rfl, ?_, rfl⟩
  intro p hp
  simp only [driverRun, Model.initMetrics, List.mem_cons,
    List.not_mem_nil, or_false] at hp
  rcases hp with h | h | h | h <;> subst h <;> rfl

/-- C9 witness at the sample configuration, whose generator returns a
class mapping of size 2, not 10. -/
theorem driver_metrics_num_classes_ten_witness :
    ∃ r, driver sampleConfig sampleGen (fun _ x => x) (fun _ _ => 0) =
        DriverOutcome.completed r ∧
      r.num_classes = 10 ∧
      r.metricSet.metrics.length = 4 ∧
      (∀ p ∈ r.metricSet.metrics, p.2.num_classes = 10) ∧
      r.metricSet.confusion_matrix.num_classes = 10 :=
  driver_metrics_num_classes_ten sampleConfig sampleGen (fun _ x => x)
    (fun _ _ => 0) rfl rfl

/-- C10: invoking the driver with no arguments is not an argparse usage
error — the optional `--config_path` flag has no default, so parsing
yields `None` — and that `None` is handed to `parse_json`, where the
failure surfaces as an unhandled downstream error on the file open, not as
a clean CLI diagnostic. -/
theorem cli_missing_config_path_downstream (fs : String → Option Config) :
    parse_args [] = CliResult.parsed none ∧
    cli_stage [] fs =
      CliStageResult.downstream
        "expected str, bytes or os.PathLike object, not NoneType" :=
  ⟨rfl, rfl⟩
